import Mathlib

/-!
Verification of the neolink session-establishment layer (`bc_protocol.rs`,
`utils.rs`) against its natural-language specification.  The Rust source is
shallowly embedded: pure functions become Lean functions over `Nat`/`List`/
`String`, machine integers are `Nat` with explicit `% 2^w`, fallible code
returns `Except`, and the async discovery loop becomes a function over the
list of join events it observes.
-/

namespace Neolink

/-! ## Bytes and 32-bit arithmetic helpers -/

/-- Little-endian byte decomposition: `leBytes k x` is the `k` low bytes of
`x`, least significant first (each entry is `< 256` by construction). -/
def leBytes : Nat → Nat → List Nat
  | 0, _ => []
  | Nat.succ k, x => (x % 256) :: leBytes k (x / 256)

/-- 32-bit left rotation, for `x < 2^32`. -/
def rotl32 (x s : Nat) : Nat :=
  ((x <<< s) ||| (x >>> (32 - s))) % 4294967296

/-! ## MD5 (RFC 1321), the model of the `md5` crate's `md5::compute`

The Rust code calls the external `md5` crate; we embed the standard MD5
algorithm it implements, operating on the UTF-8 bytes of the input string. -/

/-- The 64 round constants `K[i] = floor(2^32 * |sin(i+1)|)`. -/
def md5K : List Nat :=
  [0xd76aa478, 0xe8c7b756, 0x242070db, 0xc1bdceee,
   0xf57c0faf, 0x4787c62a, 0xa8304613, 0xfd469501,
   0x698098d8, 0x8b44f7af, 0xffff5bb1, 0x895cd7be,
   0x6b901122, 0xfd987193, 0xa679438e, 0x49b40821,
   0xf61e2562, 0xc040b340, 0x265e5a51, 0xe9b6c7aa,
   0xd62f105d, 0x02441453, 0xd8a1e681, 0xe7d3fbc8,
   0x21e1cde6, 0xc33707d6, 0xf4d50d87, 0x455a14ed,
   0xa9e3e905, 0xfcefa3f8, 0x676f02d9, 0x8d2a4c8a,
   0xfffa3942, 0x8771f681, 0x6d9d6122, 0xfde5380c,
   0xa4beea44, 0x4bdecfa9, 0xf6bb4b60, 0xbebfbc70,
   0x289b7ec6, 0xeaa127fa, 0xd4ef3085, 0x04881d05,
   0xd9d4d039, 0xe6db99e5, 0x1fa27cf8, 0xc4ac5665,
   0xf4292244, 0x432aff97, 0xab9423a7, 0xfc93a039,
   0x655b59c3, 0x8f0ccc92, 0xffeff47d, 0x85845dd1,
   0x6fa87e4f, 0xfe2ce6e0, 0xa3014314, 0x4e0811a1,
   0xf7537e82, 0xbd3af235, 0x2ad7d2bb, 0xeb86d391]

/-- The 64 per-round left-rotation amounts. -/
def md5S : List Nat :=
  [7, 12, 17, 22, 7, 12, 17, 22, 7, 12, 17, 22, 7, 12, 17, 22,
   5, 9, 14, 20, 5, 9, 14, 20, 5, 9, 14, 20, 5, 9, 14, 20,
   4, 11, 16, 23, 4, 11, 16, 23, 4, 11, 16, 23, 4, 11, 16, 23,
   6, 10, 15, 21, 6, 10, 15, 21, 6, 10, 15, 21, 6, 10, 15, 21]

/-- One MD5 round: `M` gives the 16 message words of the current block. -/
def md5Round (M : Nat → Nat) (st : Nat × Nat × Nat × Nat) (i : Nat) :
    Nat × Nat × Nat × Nat :=
  let (A, B, C, D) := st
  let fg : Nat × Nat :=
    if i < 16 then ((B &&& C) ||| ((B ^^^ 0xffffffff) &&& D), i)
    else if i < 32 then ((D &&& B) ||| ((D ^^^ 0xffffffff) &&& C), (5 * i + 1) % 16)
    else if i < 48 then (B ^^^ C ^^^ D, (3 * i + 5) % 16)
    else (C ^^^ (B ||| (D ^^^ 0xffffffff)), (7 * i) % 16)
  let f := (fg.1 + A + md5K.getD i 0 + M fg.2) % 4294967296
  (D, (B + rotl32 f (md5S.getD i 0)) % 4294967296, B, C)

/-- Process one 64-byte block, updating the four state words. -/
def md5Block (st : Nat × Nat × Nat × Nat) (block : List Nat) :
    Nat × Nat × Nat × Nat :=
  let M : Nat → Nat := fun g =>
    block.getD (4 * g) 0 + 256 * block.getD (4 * g + 1) 0 +
      65536 * block.getD (4 * g + 2) 0 + 16777216 * block.getD (4 * g + 3) 0
  let r := (List.range 64).foldl (md5Round M) st
  ((st.1 + r.1) % 4294967296, (st.2.1 + r.2.1) % 4294967296,
   (st.2.2.1 + r.2.2.1) % 4294967296, (st.2.2.2 + r.2.2.2) % 4294967296)

/-- MD5 padding: append `0x80`, zero bytes to reach 56 mod 64, then the
64-bit little-endian bit length. -/
def md5Pad (msg : List Nat) : List Nat :=
  msg ++ 0x80 :: List.replicate ((119 - msg.length % 64) % 64) 0 ++
    leBytes 8 ((8 * msg.length) % 18446744073709551616)

/-- Split a byte list into 64-byte chunks; the fuel bounds the number of
chunks (structural recursion so the kernel can evaluate it). -/
def chunks64Go : Nat → List Nat → List (List Nat)
  | 0, _ => []
  | _, [] => []
  | Nat.succ fuel, b :: rest =>
    (b :: rest).take 64 :: chunks64Go fuel ((b :: rest).drop 64)

/-- Split a byte list into 64-byte chunks. -/
def chunks64 (l : List Nat) : List (List Nat) :=
  chunks64Go l.length l

/-- The 16-byte MD5 digest of a byte list. -/
def md5Digest (msg : List Nat) : List Nat :=
  let st := (chunks64 (md5Pad msg)).foldl md5Block
    (0x67452301, 0xefcdab89, 0x98badcfe, 0x10325476)
  leBytes 4 st.1 ++ leBytes 4 st.2.1 ++ leBytes 4 st.2.2.1 ++ leBytes 4 st.2.2.2

/-- UTF-8 encoding of one scalar value (models Rust `str` bytes). -/
def utf8CharBytes (c : Char) : List Nat :=
  let n := c.toNat
  if n < 128 then [n]
  else if n < 2048 then [192 + n / 64, 128 + n % 64]
  else if n < 65536 then [224 + n / 4096, 128 + n / 64 % 64, 128 + n % 64]
  else [240 + n / 262144, 128 + n / 4096 % 64, 128 + n / 64 % 64, 128 + n % 64]

/-- The UTF-8 bytes of a string. -/
def strBytes (s : String) : List Nat :=
  (s.data.map utf8CharBytes).flatten

/-- Uppercase hex digit for a nibble, as produced by Rust `{:X}` formatting. -/
def hexUpperChar (n : Nat) : Char :=
  if n < 10 then Char.ofNat (48 + n) else Char.ofNat (55 + n)

/-- Two uppercase hex digits of one byte. -/
def byteHex (b : Nat) : List Char :=
  [hexUpperChar (b / 16), hexUpperChar (b % 16)]

/-- `format!("{:X}", md5::compute(input))`: the 32-character uppercase hex
digest of the UTF-8 bytes of `input`. -/
def md5HexUpper (input : String) : String :=
  ⟨((md5Digest (strBytes input)).map byteHex).flatten⟩

/-! ## `md5_string` (bc_protocol.rs lines 409-419) -/

/-- The two trailing-byte policies of `enum Md5Trunc`. -/
inductive Md5Trunc where
  | ZeroLast
  | Truncate
deriving DecidableEq

/-- `md5_string` from bc_protocol.rs: format the digest as `"{:X}\0"`
(33 bytes) then `replace_range(31.., ...)` with `""` for `Truncate` and
`"\0"` for `ZeroLast`.  All 33 characters are ASCII, so Rust's byte index 31
is character index 31 and `replace_range(31.., r)` is `take 31 ++ r`. -/
def md5_string (input : String) (trunc : Md5Trunc) : String :=
  let md5 : String := md5HexUpper input ++ "\x00"
  ⟨md5.data.take 31 ++
    (if trunc = Md5Trunc.Truncate then "" else "\x00").data⟩

/-! ## Errors (`errors.rs` is not in the sources; constructors are modelled
from their uses in `bc_protocol.rs` and the spec's error-kind list) -/

/-- The library error type.  `AddrResolutionError`, `CannotInitCamera`,
`DiscoveryTimeout` and `OtherString` appear verbatim in `bc_protocol.rs`;
`ConnectionError` stands for the remaining kinds (auth, protocol, transport,
io) that per-address attempts can fail with. -/
inductive Error where
  | AddrResolutionError
  | CannotInitCamera
  | DiscoveryTimeout
  | OtherString (s : String)
  | ConnectionError (s : String)
deriving DecidableEq

/-! ## Discovery methods and the enable flags (bc_protocol.rs 273-280) -/

/-- `DiscoveryMethods`, the allowed-methods mask.  Its declaration lives in a
module outside the sources; the six variants are exactly those matched in
`BcCamera::new`. -/
inductive DiscoveryMethods where
  | None
  | Local
  | Remote
  | Map
  | Relay
  | Debug
deriving DecidableEq

/-- The tuple `(allow_local, allow_remote, allow_map, allow_relay)`. -/
structure MethodFlags where
  allow_local : Bool
  allow_remote : Bool
  allow_map : Bool
  allow_relay : Bool
deriving DecidableEq

/-- The `match method` at bc_protocol.rs lines 273-280. -/
def methodFlags : DiscoveryMethods → MethodFlags
  | .None => ⟨false, false, false, false⟩
  | .Local => ⟨true, false, false, false⟩
  | .Remote => ⟨true, true, false, false⟩
  | .Map => ⟨true, true, true, false⟩
  | .Relay => ⟨true, true, true, true⟩
  | .Debug => ⟨false, false, false, true⟩

/-- Inclusion of enabled-method sets. -/
def flagsSubset (f g : MethodFlags) : Prop :=
  (f.allow_local → g.allow_local) ∧ (f.allow_remote → g.allow_remote) ∧
    (f.allow_map → g.allow_map) ∧ (f.allow_relay → g.allow_relay)

instance (f g : MethodFlags) : Decidable (flagsSubset f g) := by
  unfold flagsSubset; infer_instance

/-- Strict inclusion of enabled-method sets. -/
def flagsSSubset (f g : MethodFlags) : Prop :=
  flagsSubset f g ∧ ¬ flagsSubset g f

instance (f g : MethodFlags) : Decidable (flagsSSubset f g) := by
  unfold flagsSSubset; infer_instance

/-! ## The discovery fan-out and join loop (bc_protocol.rs 282-361) -/

/-- The four discovery tasks that `BcCamera::new` can spawn. -/
inductive MethodTag where
  | Local
  | Remote
  | Map
  | Relay
deriving DecidableEq

/-- The tasks spawned into the `JoinSet`, in the source's spawn order:
local, remote, map, relay, each guarded by its flag. -/
def spawnedTasks (f : MethodFlags) : List MethodTag :=
  (if f.allow_local then [MethodTag.Local] else []) ++
    (if f.allow_remote then [MethodTag.Remote] else []) ++
    (if f.allow_map then [MethodTag.Map] else []) ++
    (if f.allow_relay then [MethodTag.Relay] else [])

/-- A successful discovery result (opaque: only `get_addr` is read here). -/
structure DiscoveryResult where
  addr : String
deriving DecidableEq

/-- One observation of `set.join_next().await` while the set is non-empty:
a task completed with `Ok(disc)`, a task completed with `Err(e)`, or a task
panicked (the join itself failed).  The loop's `None` case is the end of the
list. -/
inductive JoinEvent where
  | success (tag : MethodTag) (disc : DiscoveryResult)
  | failure (tag : MethodTag) (e : Error)
  | panicked (msg : String)
deriving DecidableEq

/-- A success event. -/
def JoinEvent.isSuccess : JoinEvent → Bool
  | .success _ _ => true
  | _ => false

/-- A failure (`Ok(Err(e))`) event. -/
def JoinEvent.isFailure : JoinEvent → Bool
  | .failure _ _ => true
  | _ => false

/-- A join-error event (the spawned task panicked rather than completing). -/
def JoinEvent.isPanicked : JoinEvent → Bool
  | .panicked _ => true
  | _ => false

/-- The `loop { match set.join_next().await { ... } }` at bc_protocol.rs
337-360, instrumented with the `debug!("Discovery Error: {:?}", e)` log:
returns the loop's `last_result` together with the list of errors logged at
debug level.  A success breaks with `Ok`, a failure is logged and consumed,
a panic breaks with `OtherString`, and exhaustion (`None`) breaks with
`DiscoveryTimeout`. -/
def discoveryLoopLog : List JoinEvent → Except Error DiscoveryResult × List Error
  | [] => (.error .DiscoveryTimeout, [])
  | .success _ disc :: _ => (.ok disc, [])
  | .failure _ e :: rest =>
    ((discoveryLoopLog rest).1, e :: (discoveryLoopLog rest).2)
  | .panicked msg :: _ =>
    (.error (.OtherString ("Panic while joining Discovery threads: " ++ msg)), [])

/-- The value of `last_result` produced by the join loop. -/
def discoveryLoop (evs : List JoinEvent) : Except Error DiscoveryResult :=
  (discoveryLoopLog evs).1

/-! ## `BcCamera` and its constructors (bc_protocol.rs 46-382)

The async transports, the connection task and the camera network are outside
the pure fragment; they enter the embedding as an `Env` of oracles, one per
awaited external call in `BcCamera::new`.  `Env.joinEvents` gives the
sequence of join-set completions observed for a given uid, address hints and
spawned-task list. -/

/-- `PrintFormat` (bc_protocol.rs 59-67): the status-message print format. -/
inductive PrintFormat where
  | None
  | Human
  | Xml
deriving DecidableEq

/-- Opaque model of `std::net::SocketAddr`. -/
structure SocketAddr where
  addr : String
deriving DecidableEq

/-- `SocketAddrOrUid`: the tagged endpoint taken by `BcCamera::new`. -/
inductive SocketAddrOrUid where
  | SocketAddr (addr : SocketAddr)
  | Uid (uid : String) (optional_addrs : Option (List SocketAddr))
      (method : DiscoveryMethods)
deriving DecidableEq

/-- The session credentials (username and optional password). -/
structure Credentials where
  username : String
  password : Option String
deriving DecidableEq

/-- Opaque model of the split transport `(BcConnSink, BcConnSource)`. -/
structure BcConnParts where
  id : Nat
deriving DecidableEq

/-- Opaque model of an established `BcConnection`. -/
structure BcConnection where
  id : Nat
deriving DecidableEq

/-- The `BcCamera` session facade. -/
structure BcCamera where
  channel_id : Nat
  connection : BcConnection
  logged_in : Bool
  message_num : Nat
  credentials : Credentials
deriving DecidableEq

/-- The oracles for the awaited external calls of `BcCamera::new`. -/
structure Env where
  tcpSourceNew : SocketAddr → String → Option String → Except Error BcConnParts
  udpSourceNew : DiscoveryResult → String → Option String → Except Error BcConnParts
  bcConnectionNew : BcConnParts → Except Error BcConnection
  keepalive : BcCamera → Except Error Unit
  monitorBattery : BcCamera → PrintFormat → Except Error Unit
  joinEvents : String → Option (List SocketAddr) → List MethodTag → List JoinEvent

/-- An environment is well formed when an empty join set yields no
completion events (`join_next` returns `None` at once). -/
def Env.WF (env : Env) : Prop :=
  ∀ uid addrs, env.joinEvents uid addrs [] = []

/-- `BcCamera::new` (bc_protocol.rs 252-382): open the transport for the
tagged endpoint — directly over TCP for an address, or over UDP after the
discovery race for a uid — then build the connection, the camera value, and
start keep-alive and the battery monitor. -/
def BcCamera.new (env : Env) (addr : SocketAddrOrUid) (channel_id : Nat)
    (username : String) (passwd : Option String)
    (aux_info_format : PrintFormat) : Except Error BcCamera := do
  let conn ← match addr with
    | .SocketAddr a => env.tcpSourceNew a username passwd
    | .Uid uid optional_addrs method =>
      match discoveryLoop
          (env.joinEvents uid optional_addrs (spawnedTasks (methodFlags method))) with
      | .error e => .error e
      | .ok discovery => env.udpSourceNew discovery username passwd
  let bc ← env.bcConnectionNew conn
  let me : BcCamera :=
    { channel_id := channel_id, connection := bc, logged_in := false,
      message_num := 0, credentials := ⟨username, passwd⟩ }
  env.keepalive me
  env.monitorBattery me aux_info_format
  pure me

/-- The `for addr in addr_iter { if let Ok(cam) = ... { return Ok(cam) } }`
loop shared by `new_with_addr` and `new_with_addr_or_uid`: first successful
attempt wins, every per-item error is discarded, and exhaustion yields
`CannotInitCamera`. -/
def firstOkCamera (attempt : α → Except Error BcCamera) :
    List α → Except Error BcCamera
  | [] => .error .CannotInitCamera
  | a :: rest =>
    match attempt a with
    | .ok cam => .ok cam
    | .error _ => firstOkCamera attempt rest

/-- `BcCamera::new_with_addr` (83-111).  `resolved` models the outcome of
`host.to_socket_addrs()`: `none` when resolution fails, otherwise the list
of resolved addresses. -/
def new_with_addr (env : Env) (resolved : Option (List SocketAddr))
    (channel_id : Nat) (username : String) (passwd : Option String)
    (aux_info_format : PrintFormat) : Except Error BcCamera :=
  match resolved with
  | none => .error .AddrResolutionError
  | some addrs =>
    firstOkCamera
      (fun a => BcCamera.new env (.SocketAddr a) channel_id username passwd
        aux_info_format) addrs

/-- `BcCamera::new_with_uid` (126-142): delegates to `new` with a
`Uid` endpoint carrying no address hints. -/
def new_with_uid (env : Env) (uid : String) (channel_id : Nat)
    (username : String) (passwd : Option String)
    (discovery_method : DiscoveryMethods) (aux_info_format : PrintFormat) :
    Except Error BcCamera :=
  BcCamera.new env (.Uid uid none discovery_method) channel_id username passwd
    aux_info_format

/-- `BcCamera::new_with_uid_and_addr` (162-183): resolve the host (the `?`
propagates the resolution error unchanged), then delegate to `new` with a
`Uid` endpoint carrying the resolved addresses as hints. -/
def new_with_uid_and_addr (env : Env) (uid : String)
    (resolved : Except Error (List SocketAddr)) (channel_id : Nat)
    (username : String) (passwd : Option String)
    (discovery_method : DiscoveryMethods) (aux_info_format : PrintFormat) :
    Except Error BcCamera :=
  match resolved with
  | .error e => .error e
  | .ok addrs =>
    BcCamera.new env (.Uid uid (some addrs) discovery_method) channel_id
      username passwd aux_info_format

/-- `BcCamera::new_with_addr_or_uid` (205-233).  `resolved` models
`host.to_socket_addrs_or_uid()`: `none` when resolution fails, otherwise
the list of address-or-uid items tried in order. -/
def new_with_addr_or_uid (env : Env)
    (resolved : Option (List SocketAddrOrUid)) (channel_id : Nat)
    (username : String) (passwd : Option String)
    (aux_info_format : PrintFormat) : Except Error BcCamera :=
  match resolved with
  | none => .error .AddrResolutionError
  | some items =>
    firstOkCamera
      (fun it => BcCamera.new env it channel_id username passwd
        aux_info_format) items

/-! ## `new_message_num` (bc_protocol.rs 384-387) -/

/-- `new_message_num`: `fetch_add(1, Relaxed)` on the `AtomicU16` counter —
returns the current counter value and stores the increment wrapped to
`u16`. -/
def new_message_num (message_num : Nat) : Nat × Nat :=
  (message_num, (message_num + 1) % 65536)

/-- The values returned by `n` successive `new_message_num` calls starting
from counter value `c`. -/
def msgNums (c : Nat) : Nat → List Nat
  | 0 => []
  | Nat.succ n => (new_message_num c).1 :: msgNums (new_message_num c).2 n

/-! ## `max_encryption` parsing (utils.rs 117-122) -/

/-- `MaxEncryption`, the login encryption ceiling.  Declared in the `login`
module outside the sources; the three variants are those listed by the spec
and matched in `utils.rs`. -/
inductive MaxEncryption where
  | None
  | BcEncrypt
  | Aes
deriving DecidableEq

/-- Per-character ASCII lowering; models Rust `str::to_lowercase`, with
which it agrees on ASCII configuration strings. -/
def rustToLowercase (s : String) : String :=
  ⟨s.data.map Char.toLower⟩

/-- The `match camera_config.max_encryption.to_lowercase().as_str()` at
utils.rs 117-122. -/
def parse_max_encryption (max_encryption : String) : MaxEncryption :=
  match rustToLowercase max_encryption with
  | "none" => MaxEncryption.None
  | "bcencrypt" => MaxEncryption.BcEncrypt
  | "aes" => MaxEncryption.Aes
  | _ => MaxEncryption.Aes

/-- Strength order on encryption levels (plaintext < bc-encrypt < aes). -/
def encryptionStrength : MaxEncryption → Nat
  | .None => 0
  | .BcEncrypt => 1
  | .Aes => 2

/-! ## A concrete environment for evaluating the constructors

An environment in which no transport can be opened and every spawned
discovery task completes with a failure. -/

/-- Environment where every connection attempt fails and each spawned
discovery task completes with an error. -/
def testEnv : Env where
  tcpSourceNew _ _ _ := .error (.ConnectionError "unreachable")
  udpSourceNew _ _ _ := .error (.ConnectionError "unreachable")
  bcConnectionNew _ := .ok ⟨0⟩
  keepalive _ := .ok ()
  monitorBattery _ _ := .ok ()
  joinEvents _ _ tasks :=
    tasks.map fun t => .failure t (.ConnectionError "no response")

/-! ## Lemmas about the digest formatting -/

theorem leBytes_length (k x : Nat) : (leBytes k x).length = k := by
  induction k generalizing x with
  | zero => rfl
  | succ k ih => simp [leBytes, ih]

theorem leBytes_lt (k x : Nat) : ∀ b ∈ leBytes k x, b < 256 := by
  induction k generalizing x with
  | zero => intro b hb; simp [leBytes] at hb
  | succ k ih =>
    intro b hb
    rcases List.mem_cons.mp hb with h | h
    · omega
    · exact ih _ b h

theorem md5Digest_length (msg : List Nat) : (md5Digest msg).length = 16 := by
  simp [md5Digest, leBytes_length]

theorem md5Digest_lt (msg : List Nat) : ∀ b ∈ md5Digest msg, b < 256 := by
  intro b hb
  simp only [md5Digest, List.mem_append] at hb
  rcases hb with ((h | h) | h) | h <;> exact leBytes_lt _ _ b h

theorem flatten_byteHex_length (l : List Nat) :
    ((l.map byteHex).flatten).length = 2 * l.length := by
  induction l with
  | nil => rfl
  | cons b l ih => simp [byteHex, ih]; ring

theorem md5HexUpper_data_length (s : String) :
    (md5HexUpper s).data.length = 32 := by
  show (((md5Digest (strBytes s)).map byteHex).flatten).length = 32
  rw [flatten_byteHex_length, md5Digest_length]

theorem hexUpperChar_mem (n : Nat) (h : n < 16) :
    "0123456789ABCDEF".data.contains (hexUpperChar n) = true := by
  interval_cases n <;> decide

theorem md5HexUpper_chars (s : String) :
    ∀ c ∈ (md5HexUpper s).data, "0123456789ABCDEF".data.contains c = true := by
  intro c hc
  have hc2 : c ∈ ((md5Digest (strBytes s)).map byteHex).flatten := hc
  rw [List.mem_flatten] at hc2
  obtain ⟨l, hl, hcl⟩ := hc2
  rw [List.mem_map] at hl
  obtain ⟨b, hb, rfl⟩ := hl
  have hblt : b < 256 := md5Digest_lt _ b hb
  rcases List.mem_cons.mp hcl with h | h
  · exact h ▸ hexUpperChar_mem _ (by omega)
  · rcases List.mem_singleton.mp h with rfl
    exact hexUpperChar_mem _ (by omega)

theorem md5_string_truncate (s : String) :
    md5_string s Md5Trunc.Truncate = ⟨(md5HexUpper s).data.take 31⟩ := by
  show (⟨((md5HexUpper s ++ "\x00").data.take 31 ++
    (if Md5Trunc.Truncate = Md5Trunc.Truncate then ("" : String)
      else "\x00").data)⟩ : String) = _
  rw [if_pos rfl, String.data_append, List.take_append_eq_append_take,
    md5HexUpper_data_length]
  rfl

theorem md5_string_zerolast (s : String) :
    md5_string s Md5Trunc.ZeroLast =
      ⟨(md5HexUpper s).data.take 31 ++ ['\x00']⟩ := by
  show (⟨((md5HexUpper s ++ "\x00").data.take 31 ++
    (if Md5Trunc.ZeroLast = Md5Trunc.Truncate then ("" : String)
      else "\x00").data)⟩ : String) = _
  rw [if_neg (by decide), String.data_append, List.take_append_eq_append_take,
    md5HexUpper_data_length]
  rfl

/-! ## Lemmas about the discovery join loop -/

theorem discoveryLoop_first_success (pre : List JoinEvent) :
    ∀ (tag : MethodTag) (d : DiscoveryResult) (post : List JoinEvent),
      (∀ e ∈ pre, e.isSuccess = false) → (∀ e ∈ pre, e.isPanicked = false) →
      discoveryLoop (pre ++ JoinEvent.success tag d :: post) = .ok d := by
  induction pre with
  | nil => intro tag d post _ _; rfl
  | cons ev pre ih =>
    intro tag d post h1 h2
    cases ev with
    | success t dd => cases h1 _ (List.mem_cons_self _ _)
    | failure t e =>
      show discoveryLoop (JoinEvent.failure t e :: (pre ++ _)) = _
      show (discoveryLoopLog (pre ++ _)).1 = _
      exact ih tag d post (fun e he => h1 e (List.mem_cons_of_mem _ he))
        (fun e he => h2 e (List.mem_cons_of_mem _ he))
    | panicked m => cases h2 _ (List.mem_cons_self _ _)

theorem discoveryLoop_all_failures (evs : List JoinEvent)
    (h : ∀ e ∈ evs, e.isFailure = true) :
    discoveryLoop evs = .error .DiscoveryTimeout := by
  induction evs with
  | nil => rfl
  | cons ev evs ih =>
    cases ev with
    | success t d => cases h _ (List.mem_cons_self _ _)
    | failure t e =>
      show (discoveryLoopLog evs).1 = _
      exact ih fun e he => h e (List.mem_cons_of_mem _ he)
    | panicked m => cases h _ (List.mem_cons_self _ _)

theorem discoveryLoop_error (evs : List JoinEvent)
    (hcompl : ∀ e ∈ evs, e.isPanicked = false) :
    ∀ err, discoveryLoop evs = .error err →
      (∀ e ∈ evs, e.isFailure = true) ∧ err = Error.DiscoveryTimeout := by
  induction evs with
  | nil =>
    intro err herr
    refine ⟨by simp, ?_⟩
    cases herr
    rfl
  | cons ev evs ih =>
    intro err herr
    cases ev with
    | success t d => cases herr
    | failure t e =>
      have h2 := ih (fun e he => hcompl e (List.mem_cons_of_mem _ he)) err herr
      refine ⟨?_, h2.2⟩
      intro x hx
      rcases List.mem_cons.mp hx with rfl | hx
      · rfl
      · exact h2.1 x hx
    | panicked m => cases hcompl _ (List.mem_cons_self _ _)

/-! ## Lemmas about the first-success connection loop -/

theorem firstOkCamera_all_err {α : Type} (f : α → Except Error BcCamera)
    (l : List α) (h : ∀ a ∈ l, ∃ e, f a = .error e) :
    firstOkCamera f l = .error .CannotInitCamera := by
  induction l with
  | nil => rfl
  | cons a l ih =>
    obtain ⟨e, he⟩ := h a (List.mem_cons_self _ _)
    show (match f a with
      | Except.ok cam => Except.ok cam
      | Except.error _ => firstOkCamera f l) = _
    rw [he]
    exact ih fun x hx => h x (List.mem_cons_of_mem _ hx)

theorem firstOkCamera_err_eq {α : Type} (f : α → Except Error BcCamera)
    (l : List α) (e : Error) (h : firstOkCamera f l = .error e) :
    e = Error.CannotInitCamera := by
  induction l with
  | nil => cases h; rfl
  | cons a l ih =>
    revert h
    show (match f a with
      | Except.ok cam => Except.ok cam
      | Except.error _ => firstOkCamera f l) = _ → _
    cases f a with
    | ok cam => intro h; cases h
    | error e2 => exact ih

theorem firstOkCamera_ok_mem {α : Type} (f : α → Except Error BcCamera)
    (l : List α) (cam : BcCamera) (h : firstOkCamera f l = .ok cam) :
    ∃ a ∈ l, f a = .ok cam := by
  induction l with
  | nil => cases h
  | cons a l ih =>
    revert h
    show (match f a with
      | Except.ok cam => Except.ok cam
      | Except.error _ => firstOkCamera f l) = _ → _
    cases hfa : f a with
    | ok cam2 =>
      intro h
      cases h
      exact ⟨a, List.mem_cons_self _ _, hfa⟩
    | error e =>
      intro h
      obtain ⟨x, hx, hfx⟩ := ih h
      exact ⟨x, List.mem_cons_of_mem _ hx, hfx⟩

theorem firstOkCamera_exists_ok {α : Type} (f : α → Except Error BcCamera)
    (l : List α) (a : α) (cam : BcCamera) (hmem : a ∈ l)
    (hok : f a = .ok cam) : ∃ cam2, firstOkCamera f l = .ok cam2 := by
  induction l with
  | nil => cases hmem
  | cons b l ih =>
    show ∃ cam2, (match f b with
      | Except.ok cam => Except.ok cam
      | Except.error _ => firstOkCamera f l) = Except.ok cam2
    cases hfb : f b with
    | ok cam2 => exact ⟨cam2, rfl⟩
    | error e =>
      rcases List.mem_cons.mp hmem with rfl | hmem2
      · rw [hok] at hfb; cases hfb
      · exact ih hmem2

/-! ## Claim theorems -/

/-- C1: for every input string `s`, `md5_string s Truncate` is exactly the
first 31 characters of the uppercase MD5 hex digest of `s` (31 characters
drawn from the printable set `0-9A-F`, no terminator), `md5_string s
ZeroLast` is those 31 characters followed by a single NUL byte (32
characters), the two forms agree on their first 31 characters, and on
`"admin"` they produce the documented literals. -/
theorem C1_md5_string (s : String) :
    md5_string s Md5Trunc.Truncate = ⟨(md5HexUpper s).data.take 31⟩ ∧
    md5_string s Md5Trunc.ZeroLast =
      ⟨(md5HexUpper s).data.take 31 ++ ['\x00']⟩ ∧
    (md5_string s Md5Trunc.Truncate).length = 31 ∧
    (md5_string s Md5Trunc.ZeroLast).length = 32 ∧
    (md5_string s Md5Trunc.ZeroLast).data.take 31 =
      (md5_string s Md5Trunc.Truncate).data ∧
    ((md5_string s Md5Trunc.Truncate).data.all
      fun c => "0123456789ABCDEF".data.contains c) = true ∧
    md5_string "admin" Md5Trunc.Truncate = "21232F297A57A5A743894A0E4A801FC" ∧
    md5_string "admin" Md5Trunc.ZeroLast =
      "21232F297A57A5A743894A0E4A801FC\x00" := by
  have hlen : (md5HexUpper s).data.length = 32 := md5HexUpper_data_length s
  have htake : ((md5HexUpper s).data.take 31).length = 31 := by
    rw [List.length_take, hlen]
    decide
  refine ⟨md5_string_truncate s, md5_string_zerolast s, ?_, ?_, ?_, ?_, ?_, ?_⟩
  · show (md5_string s Md5Trunc.Truncate).data.length = 31
    rw [md5_string_truncate s]
    exact htake
  · show (md5_string s Md5Trunc.ZeroLast).data.length = 32
    rw [md5_string_zerolast s]
    simp [htake]
  · rw [md5_string_truncate s, md5_string_zerolast s]
    show ((md5HexUpper s).data.take 31 ++ ['\x00']).take 31 = _
    rw [List.take_append_eq_append_take, htake, List.take_take]
    simp
  · rw [md5_string_truncate s]
    rw [List.all_eq_true]
    intro c hc
    exact md5HexUpper_chars s c (List.take_subset _ _ hc)
  · decide
  · decide

/-- C2: over any sequence of discovery-task completions (no panicking
tasks), the join loop returns the first successful completion whatever its
method, and when every completion is a failure it returns
`DiscoveryTimeout`. -/
theorem C2_discovery_first_success (evs : List JoinEvent)
    (hcompl : ∀ e ∈ evs, e.isPanicked = false) :
    (∀ (pre : List JoinEvent) (tag : MethodTag) (d : DiscoveryResult)
        (post : List JoinEvent),
      evs = pre ++ JoinEvent.success tag d :: post →
      (∀ e ∈ pre, e.isSuccess = false) →
      discoveryLoop evs = .ok d) ∧
    ((∀ e ∈ evs, e.isFailure = true) →
      discoveryLoop evs = .error .DiscoveryTimeout) := by
  constructor
  · intro pre tag d post heq h1
    subst heq
    exact discoveryLoop_first_success pre tag d post h1
      (fun e he => hcompl e (List.mem_append_left _ he))
  · exact discoveryLoop_all_failures evs

/-- C2 witness: a failing local completion followed by a relay success
yields the relay result; two failing completions yield
`DiscoveryTimeout`. -/
theorem C2_discovery_first_success_witness :
    discoveryLoop [JoinEvent.failure .Local .DiscoveryTimeout,
      JoinEvent.success .Relay ⟨"10.0.0.2:9000"⟩] = .ok ⟨"10.0.0.2:9000"⟩ ∧
    discoveryLoop [JoinEvent.failure .Local .DiscoveryTimeout,
      JoinEvent.failure .Remote (.ConnectionError "refused")] =
      .error .DiscoveryTimeout := by
  constructor
  · exact (C2_discovery_first_success _ (by decide)).1
      [JoinEvent.failure .Local .DiscoveryTimeout] .Relay ⟨"10.0.0.2:9000"⟩ []
      rfl (by decide)
  · exact (C2_discovery_first_success _ (by decide)).2 (by decide)

/-- C3: the mapping from `DiscoveryMethods` to the four enable flags is as
in the source, each successive level `None, Local, Remote, Map, Relay`
strictly widens the enabled set, and `Debug` enables only relay. -/
theorem C3_method_flags :
    methodFlags .None = ⟨false, false, false, false⟩ ∧
    methodFlags .Local = ⟨true, false, false, false⟩ ∧
    methodFlags .Remote = ⟨true, true, false, false⟩ ∧
    methodFlags .Map = ⟨true, true, true, false⟩ ∧
    methodFlags .Relay = ⟨true, true, true, true⟩ ∧
    methodFlags .Debug = ⟨false, false, false, true⟩ ∧
    flagsSSubset (methodFlags .None) (methodFlags .Local) ∧
    flagsSSubset (methodFlags .Local) (methodFlags .Remote) ∧
    flagsSSubset (methodFlags .Remote) (methodFlags .Map) ∧
    flagsSSubset (methodFlags .Map) (methodFlags .Relay) := by
  decide

/-- C6: a failing completion of a single discovery method is recorded in
the debug log and consumed — the loop result on `failure :: rest` is the
result on `rest` — and an error reaches the caller only when every observed
completion was a failure (the whole engine failed), in which case the error
is `DiscoveryTimeout`. -/
theorem C6_discovery_failure_consumed (tag : MethodTag) (e : Error)
    (rest evs : List JoinEvent) (hcompl : ∀ ev ∈ evs, ev.isPanicked = false) :
    discoveryLoop (JoinEvent.failure tag e :: rest) = discoveryLoop rest ∧
    (discoveryLoopLog (JoinEvent.failure tag e :: rest)).2 =
      e :: (discoveryLoopLog rest).2 ∧
    (∀ err, discoveryLoop evs = .error err →
      (∀ ev ∈ evs, ev.isFailure = true) ∧ err = Error.DiscoveryTimeout) :=
  ⟨rfl, rfl, discoveryLoop_error evs hcompl⟩

/-- C6 witness: a consumed local failure before a remote success, and the
error analysis of an all-failure run. -/
theorem C6_discovery_failure_consumed_witness :
    discoveryLoop [JoinEvent.failure .Local (.ConnectionError "no route"),
      JoinEvent.success .Remote ⟨"10.0.0.3:9000"⟩] =
      discoveryLoop [JoinEvent.success .Remote ⟨"10.0.0.3:9000"⟩] ∧
    (discoveryLoopLog [JoinEvent.failure .Local (.ConnectionError "no route"),
      JoinEvent.success .Remote ⟨"10.0.0.3:9000"⟩]).2 =
      [Error.ConnectionError "no route"] := by
  have h := C6_discovery_failure_consumed .Local (.ConnectionError "no route")
    [JoinEvent.success .Remote ⟨"10.0.0.3:9000"⟩] [] (by decide)
  exact ⟨h.1, h.2.1⟩

/-- C4: `new_with_addr` (and likewise `new_with_addr_or_uid`) returns
`AddrResolutionError` exactly when host resolution fails; when resolution
succeeds but every resolved item fails to yield a camera it returns
`CannotInitCamera`; and when some resolved item succeeds it returns a
camera produced by one of the attempts. -/
theorem C4_resolution_errors (env : Env)
    (resolvedA : Option (List SocketAddr))
    (resolvedU : Option (List SocketAddrOrUid)) (channel_id : Nat)
    (username : String) (passwd : Option String) (fmt : PrintFormat) :
    (new_with_addr env resolvedA channel_id username passwd fmt =
        .error .AddrResolutionError ↔ resolvedA = none) ∧
    (∀ addrs, resolvedA = some addrs →
      (∀ a ∈ addrs, ∃ e, BcCamera.new env (.SocketAddr a) channel_id username
          passwd fmt = .error e) →
      new_with_addr env resolvedA channel_id username passwd fmt =
        .error .CannotInitCamera) ∧
    (∀ addrs a cam, resolvedA = some addrs → a ∈ addrs →
      BcCamera.new env (.SocketAddr a) channel_id username passwd fmt =
        .ok cam →
      ∃ cam2, new_with_addr env resolvedA channel_id username passwd fmt =
        .ok cam2 ∧ ∃ a2 ∈ addrs, BcCamera.new env (.SocketAddr a2) channel_id
          username passwd fmt = .ok cam2) ∧
    (new_with_addr_or_uid env resolvedU channel_id username passwd fmt =
        .error .AddrResolutionError ↔ resolvedU = none) ∧
    (∀ items, resolvedU = some items →
      (∀ it ∈ items, ∃ e, BcCamera.new env it channel_id username passwd fmt =
        .error e) →
      new_with_addr_or_uid env resolvedU channel_id username passwd fmt =
        .error .CannotInitCamera) ∧
    (∀ items it cam, resolvedU = some items → it ∈ items →
      BcCamera.new env it channel_id username passwd fmt = .ok cam →
      ∃ cam2, new_with_addr_or_uid env resolvedU channel_id username passwd
        fmt = .ok cam2 ∧ ∃ it2 ∈ items, BcCamera.new env it2 channel_id
          username passwd fmt = .ok cam2) := by
  refine ⟨?_, ?_, ?_, ?_, ?_, ?_⟩
  · cases resolvedA with
    | none => simp [new_with_addr]
    | some addrs =>
      simp only [new_with_addr]
      constructor
      · intro h
        cases firstOkCamera_err_eq _ _ _ h
      · intro h
        cases h
  · intro addrs heq h
    subst heq
    exact firstOkCamera_all_err _ _ h
  · intro addrs a cam heq hmem hok
    subst heq
    obtain ⟨cam2, h2⟩ := firstOkCamera_exists_ok
      (fun a => BcCamera.new env (.SocketAddr a) channel_id username passwd
        fmt) addrs a cam hmem hok
    exact ⟨cam2, h2, firstOkCamera_ok_mem _ _ _ h2⟩
  · cases resolvedU with
    | none => simp [new_with_addr_or_uid]
    | some items =>
      simp only [new_with_addr_or_uid]
      constructor
      · intro h
        cases firstOkCamera_err_eq _ _ _ h
      · intro h
        cases h
  · intro items heq h
    subst heq
    exact firstOkCamera_all_err _ _ h
  · intro items it cam heq hmem hok
    subst heq
    obtain ⟨cam2, h2⟩ := firstOkCamera_exists_ok
      (fun it => BcCamera.new env it channel_id username passwd fmt) items
      it cam hmem hok
    exact ⟨cam2, h2, firstOkCamera_ok_mem _ _ _ h2⟩

/-- C4 witness: in the failing environment a resolved single address yields
`CannotInitCamera`, and a failed resolution yields `AddrResolutionError`. -/
theorem C4_resolution_errors_witness :
    new_with_addr testEnv (some [⟨"192.0.2.10:9000"⟩]) 0 "admin" none .Human =
      .error .CannotInitCamera ∧
    new_with_addr testEnv none 0 "admin" none .Human =
      .error .AddrResolutionError := by
  constructor
  · exact (C4_resolution_errors testEnv (some [⟨"192.0.2.10:9000"⟩]) none 0
      "admin" none .Human).2.1 _ rfl
      (fun a _ => ⟨.ConnectionError "unreachable", by
        cases a
        rfl⟩)
  · exact (C4_resolution_errors testEnv none none 0 "admin" none
      .Human).1.mpr rfl

/-- C8: the four public constructors collapse to the internal
`BcCamera::new` on the corresponding tagged endpoint: `new_with_uid` is
`new` on `Uid(uid, None, method)`, `new_with_uid_and_addr` after a
successful resolution is `new` on `Uid(uid, Some(addrs), method)`, and the
two address-list constructors try `new` on each resolved item in order. -/
theorem C8_constructors_collapse (env : Env) (uid : String)
    (addrs : List SocketAddr) (items : List SocketAddrOrUid)
    (channel_id : Nat) (username : String) (passwd : Option String)
    (method : DiscoveryMethods) (fmt : PrintFormat) :
    new_with_uid env uid channel_id username passwd method fmt =
      BcCamera.new env (.Uid uid none method) channel_id username passwd
        fmt ∧
    new_with_uid_and_addr env uid (.ok addrs) channel_id username passwd
        method fmt =
      BcCamera.new env (.Uid uid (some addrs) method) channel_id username
        passwd fmt ∧
    new_with_addr env (some addrs) channel_id username passwd fmt =
      firstOkCamera (fun a => BcCamera.new env (.SocketAddr a) channel_id
        username passwd fmt) addrs ∧
    new_with_addr_or_uid env (some items) channel_id username passwd fmt =
      firstOkCamera (fun it => BcCamera.new env it channel_id username
        passwd fmt) items :=
  ⟨rfl, rfl, rfl, rfl⟩

/-- C9: with a `Uid` endpoint and `DiscoveryMethods::None` no discovery
task is spawned and `BcCamera::new` fails with `DiscoveryTimeout`, in any
well-formed environment. -/
theorem C9_none_method_times_out (env : Env) (hwf : env.WF) (uid : String)
    (optional_addrs : Option (List SocketAddr)) (channel_id : Nat)
    (username : String) (passwd : Option String) (fmt : PrintFormat) :
    spawnedTasks (methodFlags .None) = [] ∧
    BcCamera.new env (.Uid uid optional_addrs .None) channel_id username
      passwd fmt = .error .DiscoveryTimeout := by
  refine ⟨rfl, ?_⟩
  show (do
    let conn ← match discoveryLoop
        (env.joinEvents uid optional_addrs
          (spawnedTasks (methodFlags .None))) with
      | .error e => Except.error e
      | .ok discovery => env.udpSourceNew discovery username passwd
    let bc ← env.bcConnectionNew conn
    let me : BcCamera :=
      { channel_id := channel_id, connection := bc, logged_in := false,
        message_num := 0, credentials := ⟨username, passwd⟩ }
    env.keepalive me
    env.monitorBattery me fmt
    pure me) = Except.error Error.DiscoveryTimeout
  rw [show spawnedTasks (methodFlags .None) = [] from rfl,
    hwf uid optional_addrs]
  rfl

/-- C9 witness: in the concrete failing environment, a uid endpoint with
method `None` gives `DiscoveryTimeout`. -/
theorem C9_none_method_times_out_witness :
    testEnv.WF ∧
    BcCamera.new testEnv (.Uid "ABCDEF0123456789" none .None) 0 "admin" none
      .Human = .error .DiscoveryTimeout :=
  ⟨fun _ _ => rfl,
    (C9_none_method_times_out testEnv (fun _ _ => rfl) "ABCDEF0123456789"
      none 0 "admin" none .Human).2⟩

/-- C10: when every per-item connection attempt fails the caller observes
only `CannotInitCamera`, whatever the individual errors were: both
address-list constructors return `CannotInitCamera`, and never surface any
other error value. -/
theorem C10_errors_discarded (env : Env) (addrs : List SocketAddr)
    (items : List SocketAddrOrUid) (channel_id : Nat) (username : String)
    (passwd : Option String) (fmt : PrintFormat)
    (hA : ∀ a ∈ addrs, ∃ e, BcCamera.new env (.SocketAddr a) channel_id
      username passwd fmt = .error e)
    (hU : ∀ it ∈ items, ∃ e, BcCamera.new env it channel_id username passwd
      fmt = .error e) :
    new_with_addr env (some addrs) channel_id username passwd fmt =
      .error .CannotInitCamera ∧
    new_with_addr_or_uid env (some items) channel_id username passwd fmt =
      .error .CannotInitCamera ∧
    (∀ e, e ≠ Error.CannotInitCamera →
      new_with_addr env (some addrs) channel_id username passwd fmt ≠
        .error e ∧
      new_with_addr_or_uid env (some items) channel_id username passwd fmt ≠
        .error e) := by
  have h1 : new_with_addr env (some addrs) channel_id username passwd fmt =
      .error .CannotInitCamera := firstOkCamera_all_err _ _ hA
  have h2 : new_with_addr_or_uid env (some items) channel_id username passwd
      fmt = .error .CannotInitCamera := firstOkCamera_all_err _ _ hU
  refine ⟨h1, h2, ?_⟩
  intro e he
  constructor
  · rw [h1]
    intro hcontra
    exact he (Except.error.inj hcontra).symm
  · rw [h2]
    intro hcontra
    exact he (Except.error.inj hcontra).symm

/-- C10 witness: with all attempts failing on one address and one uid item,
both constructors return `CannotInitCamera`, and in particular not the
underlying `ConnectionError`. -/
theorem C10_errors_discarded_witness :
    new_with_addr testEnv (some [⟨"192.0.2.11:9000"⟩]) 0 "admin" none
      .Human = .error .CannotInitCamera ∧
    new_with_addr testEnv (some [⟨"192.0.2.11:9000"⟩]) 0 "admin" none
      .Human ≠ .error (.ConnectionError "unreachable") ∧
    new_with_addr_or_uid testEnv
      (some [.Uid "ABCDEF0123456789" none .Relay]) 0 "admin" none .Human =
      .error .CannotInitCamera := by
  have h := C10_errors_discarded testEnv [⟨"192.0.2.11:9000"⟩]
    [.Uid "ABCDEF0123456789" none .Relay] 0 "admin" none .Human
    (fun a _ => ⟨.ConnectionError "unreachable", by
      cases a
      rfl⟩)
    (fun it hit => ⟨.DiscoveryTimeout, by
      rcases List.mem_singleton.mp hit with rfl
      rfl⟩)
  exact ⟨h.1, (h.2.2 _ (by decide)).1, h.2.1⟩

/-! ## Lemmas about the message-number counter -/

theorem msgNums_eq (n : Nat) : ∀ c, c < 65536 →
    msgNums c n = ((List.range n).map fun i => (c + i) % 65536) := by
  induction n with
  | zero => intro c hc; rfl
  | succ n ih =>
    intro c hc
    have hstep : msgNums c (n + 1) = c :: msgNums ((c + 1) % 65536) n := rfl
    rw [hstep, List.range_succ_eq_map, List.map_cons, List.map_map,
      ih ((c + 1) % 65536) (Nat.mod_lt _ (by omega))]
    congr 1
    · show c = (c + 0) % 65536
      omega
    · congr 1
      funext i
      show ((c + 1) % 65536 + i) % 65536 = (c + Nat.succ i) % 65536
      omega

theorem msgNums_nodup (c n : Nat) (hc : c < 65536) (hn : n ≤ 65536) :
    (msgNums c n).Nodup := by
  rw [msgNums_eq n c hc]
  refine List.Nodup.map_on ?_ (List.nodup_range n)
  intro i hi j hj hij
  rw [List.mem_range] at hi hj
  omega

theorem getD_map_range (f : Nat → Nat) (n i : Nat) (h : i < n) :
    ((List.range n).map f).getD i 0 = f i := by
  rw [List.getD_eq_getElem?_getD, List.getElem?_map, List.getElem?_range h]
  rfl

/-- C7: `new_message_num` returns the current counter value and stores the
increment wrapped modulo `2^16`; `n` successive calls starting from counter
`c` return the consecutive values `(c + i) % 2^16`, pairwise distinct within
any window of at most `2^16` calls and strictly increasing until the `u16`
wraps. -/
theorem C7_message_num (c n : Nat) (hc : c < 65536) :
    new_message_num c = (c, (c + 1) % 65536) ∧
    msgNums c n = ((List.range n).map fun i => (c + i) % 65536) ∧
    (n ≤ 65536 → (msgNums c n).Nodup) ∧
    (∀ i j, i < j → j < n → c + j < 65536 →
      (msgNums c n).getD i 0 < (msgNums c n).getD j 0) := by
  refine ⟨rfl, msgNums_eq n c hc, fun hn => msgNums_nodup c n hc hn, ?_⟩
  intro i j hij hj hcj
  rw [msgNums_eq n c hc, getD_map_range _ _ _ (by omega),
    getD_map_range _ _ _ hj]
  omega

/-- C7 witness: three calls starting at counter 65534 return 65534, 65535,
0 — the wrap — with no duplicates. -/
theorem C7_message_num_witness :
    msgNums 65534 3 = [65534, 65535, 0] ∧ (msgNums 65534 3).Nodup := by
  have h := C7_message_num 65534 3 (by decide)
  refine ⟨?_, h.2.2.1 (by decide)⟩
  rw [h.2.1]
  rfl

/-- C5: the configured `max_encryption` string is matched after lowering:
`"none"` in any letter case yields `MaxEncryption::None`, `"bcencrypt"`
yields `BcEncrypt`, `"aes"` yields `Aes`, and every other string defaults
to `Aes`, the strictest level. -/
theorem C5_max_encryption (s : String) :
    (rustToLowercase s = "none" →
      parse_max_encryption s = MaxEncryption.None) ∧
    (rustToLowercase s = "bcencrypt" →
      parse_max_encryption s = MaxEncryption.BcEncrypt) ∧
    (rustToLowercase s = "aes" → parse_max_encryption s = MaxEncryption.Aes) ∧
    (rustToLowercase s ≠ "none" → rustToLowercase s ≠ "bcencrypt" →
      rustToLowercase s ≠ "aes" →
      parse_max_encryption s = MaxEncryption.Aes) ∧
    (∀ m, encryptionStrength m ≤ encryptionStrength MaxEncryption.Aes) := by
  refine ⟨?_, ?_, ?_, ?_, ?_⟩
  · intro h
    unfold parse_max_encryption
    rw [h]
    rfl
  · intro h
    unfold parse_max_encryption
    rw [h]
    rfl
  · intro h
    unfold parse_max_encryption
    rw [h]
    rfl
  · intro h1 h2 h3
    unfold parse_max_encryption
    split <;> simp_all
  · intro m
    cases m <;> decide

/-- C5 witness: mixed-case `"NoNe"` parses to `None`; the unrecognized
string `"zzz"` defaults to `Aes`. -/
theorem C5_max_encryption_witness :
    rustToLowercase "NoNe" = "none" ∧
    parse_max_encryption "NoNe" = MaxEncryption.None ∧
    rustToLowercase "zzz" ≠ "none" ∧
    parse_max_encryption "zzz" = MaxEncryption.Aes :=
  ⟨by decide, (C5_max_encryption "NoNe").1 (by decide), by decide,
    (C5_max_encryption "zzz").2.2.2.1 (by decide) (by decide) (by decide)⟩

end Neolink
